import Mathlib

/-!
Verification of the debug-session establishment core of kubectl-debug
(`pkg/plugin/cmd.go`).

The Go source is shallowly embedded: pure control flow becomes Lean
functions, external collaborators (pod lookup, the SPDY stream, terminal
probing) become explicit environment parameters, and the observable
effects of `Run` (messages written to the error stream, the request that
is built, the call into the stream transport, the terminal-mode history)
are collected in an explicit trace structure.
-/

namespace KubectlDebug

/-! ## Data model (corev1 pod fragments used by cmd.go) -/

/-- Phase of a pod, `pod.Status.Phase` (corev1.PodPhase). -/
inductive PodPhase
  | pending
  | running
  | succeeded
  | failed
  | unknown
deriving DecidableEq, Repr

/-- Go string form of a pod phase, as printed by `%s` on corev1.PodPhase. -/
def phaseString : PodPhase → String
  | PodPhase.pending => "Pending"
  | PodPhase.running => "Running"
  | PodPhase.succeeded => "Succeeded"
  | PodPhase.failed => "Failed"
  | PodPhase.unknown => "Unknown"

/-- A declared container of the pod spec (`pod.Spec.Containers`); only the
name is read by cmd.go. -/
structure Container where
  Name : String
deriving DecidableEq, Repr

/-- A container status entry (`pod.Status.ContainerStatuses`): name, ready
flag and the opaque runtime identifier. -/
structure ContainerStatus where
  Name : String
  Ready : Bool
  ContainerID : String
deriving DecidableEq, Repr

/-- The pod spec fragment used by cmd.go: the declared container order. -/
structure PodSpec where
  Containers : List Container
deriving DecidableEq, Repr

/-- The pod status fragment used by cmd.go. -/
structure PodStatus where
  Phase : PodPhase
  HostIP : String
  ContainerStatuses : List ContainerStatus
deriving DecidableEq, Repr

/-- A pod as read by `Run`. -/
structure Pod where
  Spec : PodSpec
  Status : PodStatus
deriving DecidableEq, Repr

/-! ## Errors returned by Run and its helpers -/

/-- The errors `Run` can return, one constructor per `fmt.Errorf` site
(plus the pass-through of the pod lookup error and of the stream error). -/
inductive DebugError
  | podGetError (msg : String)
  | podNotDebuggable (phase : PodPhase)
  | containerNotReady (name : String)
  | containerNotFound (name : String)
  | transportError (msg : String)
deriving DecidableEq, Repr

/-- The Go error message of each error, matching the `fmt.Errorf` format
strings of cmd.go. -/
def DebugError.message : DebugError → String
  | DebugError.podGetError msg => msg
  | DebugError.podNotDebuggable phase =>
      "cannot debug in a completed pod; current phase is " ++ phaseString phase
  | DebugError.containerNotReady name => "container " ++ name ++ " id not ready"
  | DebugError.containerNotFound name => "cannot find specified container " ++ name
  | DebugError.transportError msg => msg

/-! ## getContainerIdByName (cmd.go lines 296-307) -/

/-- Loop body of `getContainerIdByName`: scan the container statuses in
order; skip entries whose name differs; at the first entry whose name
matches, fail when it is not ready, otherwise return its ContainerID;
report not-found when the scan ends. -/
def getContainerIdByNameAux (containerName : String) :
    List ContainerStatus → Except DebugError String
  | [] => Except.error (DebugError.containerNotFound containerName)
  | containerStatus :: rest =>
    if containerStatus.Name ≠ containerName then
      getContainerIdByNameAux containerName rest
    else if containerStatus.Ready = false then
      Except.error (DebugError.containerNotReady containerName)
    else
      Except.ok containerStatus.ContainerID

/-- `(o *DebugOptions) getContainerIdByName(pod, containerName)`. -/
def getContainerIdByName (pod : Pod) (containerName : String) :
    Except DebugError String :=
  getContainerIdByNameAux containerName pod.Status.ContainerStatuses

/-! ## setupTTY (cmd.go lines 331-351) -/

/-- The fragment of `term.TTY` that cmd.go reads back: the Raw flag.
(The In/Out stream fields are carried implicitly by the trace model.) -/
structure TTY where
  Raw : Bool
deriving DecidableEq, Repr

/-- Warning printed by setupTTY when the input is not a terminal. -/
def unableToUseTTYMsg : String :=
  "Unable to use a TTY - input is not a terminal or the right kind of file"

/-- `(o *DebugOptions) setupTTY()`: the source sets `t.Raw = true` before
probing `t.IsTerminalIn()`; in the non-interactive branch it prints a
warning to ErrOut (when ErrOut is non-nil) and returns `t` as is — with
Raw still true.  Returns the TTY and the messages written to ErrOut. -/
def setupTTY (isTerminalIn : Bool) (errOutPresent : Bool) : TTY × List String :=
  let t : TTY := { Raw := true }
  if isTerminalIn = false then
    (t, if errOutPresent then [unableToUseTTYMsg] else [])
  else
    (t, [])

/-! ## Terminal mode and the Safe wrapper -/

/-- Local terminal mode (raw vs cooked line discipline). -/
inductive TermMode
  | cooked
  | raw
deriving DecidableEq, Repr

/-- Modelled from the spec: `term.TTY.Safe` (the k8s terminal helper
invoked at cmd.go line 288, not part of this repository) runs the body
after switching the local terminal into raw mode when `t.Raw` is set and
the input really is a terminal, and restores the saved terminal state on
every exit path out of the body, error or not.  The result is the body's
outcome, the final terminal mode, and the mode history (initial, during
the body, final). -/
def TTYSafe (t : TTY) (isTerminalIn : Bool) (m0 : TermMode)
    (body : Except String Unit) : Except String Unit × TermMode × List TermMode :=
  if t.Raw = true ∧ isTerminalIn = true then
    (body, m0, [m0, TermMode.raw, m0])
  else
    (body, m0, [m0])

/-! ## DebugOptions and the Run environment -/

/-- The fields of `DebugOptions` that `Run` reads (after `Complete` has
populated them).  `ErrOutPresent` records whether `o.ErrOut` is non-nil
on entry. -/
structure DebugOptions where
  Namespace : String
  PodName : String
  Image : String
  ContainerName : String
  Command : List String
  AgentPort : Int
  ErrOutPresent : Bool
deriving DecidableEq, Repr

/-- Results of the external collaborators `Run` calls: the pod lookup
(`o.PodClient.Pods(...).Get`), the interactive-terminal probe
(`t.IsTerminalIn()`), and the outcome of the SPDY stream
(`exec.Stream` inside `remoteExecute`). -/
structure RunEnv where
  GetPodResult : Except String Pod
  IsTerminalIn : Bool
  TransportResult : Except String Unit
deriving Repr

/-- Outcome of `Run`: normal return, error return, or a Go runtime panic
(the unguarded `pod.Spec.Containers[0]` index). -/
inductive RunOutcome
  | ok
  | err (e : DebugError)
  | panicked
deriving DecidableEq, Repr

/-- The request built inside the `fn` closure of `Run` (cmd.go lines
267-284): scheme/host/port from `http://hostIP:agentPort`, the fixed
path, and the query parameters in the sorted order produced by
`url.Values.Encode`. -/
structure DebugRequest where
  Host : String
  Port : Int
  Path : String
  Params : List (String × String)
deriving DecidableEq, Repr

/-- The arguments of the `remoteExecute` call that matter to the claims:
the tty flag and whether the stderr writer passed in is nil. -/
structure RemoteCall where
  tty : Bool
  errOutNil : Bool
deriving DecidableEq, Repr

/-- Observable trace of one `Run` invocation. -/
structure RunTrace where
  Result : RunOutcome
  ErrOutMessages : List String
  ResolvedName : Option String
  Request : Option DebugRequest
  Remote : Option RemoteCall
  MonitorSizeCalled : Bool
  FinalMode : TermMode
deriving Repr

/-- Advisory printed when the container name is defaulted (cmd.go 244). -/
def defaultingMsg (name : String) : String :=
  "Defaulting container name to " ++ name ++ "."

/-! ## JSON encoding of the command vector

`Run` serializes `o.Command` with `json.Marshal` (cmd.go line 278).
Modelled from the spec: `encoding/json.Marshal` applied to a `[]string`
(standard-library code, not part of this repository) produces a JSON
array of JSON strings with Go's default escaping: quote and backslash
escaped, newline / carriage-return / tab as two-character escapes, other
control characters as lowercase `\u00XX`, the HTML characters and the
line/paragraph separators as `\uXXXX`, everything else copied through.
The decoder below models the agent-side JSON decode of that parameter. -/

/-- The double-quote character (written by code point to keep the
character-level model uniform). -/
def quoteChar : Char := Char.ofNat 34

/-- The backslash character. -/
def backslashChar : Char := Char.ofNat 92

/-- Lowercase hex digit for a value below 16. -/
def hexDigitChar (n : Nat) : Char :=
  if n < 10 then Char.ofNat (48 + n) else Char.ofNat (87 + n)

/-- Value of a hex digit character (either case), none otherwise. -/
def hexDigitVal (c : Char) : Option Nat :=
  if 48 ≤ c.toNat ∧ c.toNat ≤ 57 then some (c.toNat - 48)
  else if 97 ≤ c.toNat ∧ c.toNat ≤ 102 then some (c.toNat - 87)
  else if 65 ≤ c.toNat ∧ c.toNat ≤ 70 then some (c.toNat - 55)
  else none

/-- Escape one character the way Go's json.Marshal escapes characters
inside a string (HTML escaping enabled, its default). -/
def jsonEscapeChar (c : Char) : List Char :=
  if c = quoteChar then [backslashChar, quoteChar]
  else if c = backslashChar then [backslashChar, backslashChar]
  else if c = '\n' then [backslashChar, 'n']
  else if c = '\r' then [backslashChar, 'r']
  else if c = '\t' then [backslashChar, 't']
  else if c.toNat < 32 then
    [backslashChar, 'u', '0', '0', hexDigitChar (c.toNat / 16), hexDigitChar (c.toNat % 16)]
  else if c = '<' then [backslashChar, 'u', '0', '0', '3', 'c']
  else if c = '>' then [backslashChar, 'u', '0', '0', '3', 'e']
  else if c = '&' then [backslashChar, 'u', '0', '0', '2', '6']
  else if c.toNat = 8232 then [backslashChar, 'u', '2', '0', '2', '8']
  else if c.toNat = 8233 then [backslashChar, 'u', '2', '0', '2', '9']
  else [c]

/-- Escape every character of a string body. -/
def jsonEscapeString : List Char → List Char
  | [] => []
  | c :: cs => jsonEscapeChar c ++ jsonEscapeString cs

/-- A JSON string literal: quote, escaped body, quote. -/
def jsonEncodeStringChars (s : String) : List Char :=
  quoteChar :: (jsonEscapeString s.data ++ [quoteChar])

/-- Comma-separated encodings of the array elements. -/
def jsonEncodeStringListAux : List String → List Char
  | [] => []
  | [s] => jsonEncodeStringChars s
  | s :: rest => jsonEncodeStringChars s ++ ',' :: jsonEncodeStringListAux rest

/-- The full JSON array encoding of a string list, as `json.Marshal`
produces for a non-nil `[]string`. -/
def jsonEncodeStringList (xs : List String) : List Char :=
  '[' :: (jsonEncodeStringListAux xs ++ [']'])

/-- Inverse of `jsonUnescape`-style two-character escapes. -/
def jsonUnescapeChar (c : Char) : Option Char :=
  if c = quoteChar then some quoteChar
  else if c = backslashChar then some backslashChar
  else if c = '/' then some '/'
  else if c = 'n' then some '\n'
  else if c = 'r' then some '\r'
  else if c = 't' then some '\t'
  else if c = 'b' then some (Char.ofNat 8)
  else if c = 'f' then some (Char.ofNat 12)
  else none

/-- Parse the body of a JSON string literal (the opening quote already
consumed): returns the decoded characters and the input after the
closing quote.  The fuel argument (any value above the number of
decoded characters) only forces structural recursion. -/
def jsonParseStringBody : Nat → List Char → Option (List Char × List Char)
  | 0, _ => none
  | _ + 1, [] => none
  | fuel + 1, c :: rest =>
    if c = quoteChar then some ([], rest)
    else if c = backslashChar then
      match rest with
      | [] => none
      | e :: rest2 =>
        if e = 'u' then
          match rest2 with
          | h1 :: h2 :: h3 :: h4 :: rest3 =>
            match hexDigitVal h1, hexDigitVal h2, hexDigitVal h3, hexDigitVal h4 with
            | some a, some b, some c2, some d =>
              (jsonParseStringBody fuel rest3).map
                (fun p => (Char.ofNat (((a * 16 + b) * 16 + c2) * 16 + d) :: p.1, p.2))
            | _, _, _, _ => none
          | _ => none
        else
          match jsonUnescapeChar e with
          | some u => (jsonParseStringBody fuel rest2).map (fun p => (u :: p.1, p.2))
          | none => none
    else
      (jsonParseStringBody fuel rest).map (fun p => (c :: p.1, p.2))

/-- Parse the elements of a non-empty JSON string array (the opening
bracket already consumed), with fuel bounding the number of elements:
each element is a string literal followed by a comma (more elements) or
the closing bracket (done). -/
def jsonParseItems : Nat → List Char → Option (List String × List Char)
  | 0, _ => none
  | _ + 1, [] => none
  | fuel + 1, c :: rest =>
    if c = quoteChar then
      match jsonParseStringBody (rest.length + 1) rest with
      | none => none
      | some (s, r) =>
        match r with
        | ',' :: r2 =>
          match jsonParseItems fuel r2 with
          | some (ss, r3) => some (String.mk s :: ss, r3)
          | none => none
        | ']' :: r2 => some ([String.mk s], r2)
        | _ => none
    else none

/-- Decode a JSON string array (non-empty form), the agent-side inverse
of `jsonEncodeStringList`. -/
def jsonDecodeStringList (cs : List Char) : Option (List String) :=
  match cs with
  | '[' :: rest =>
    match jsonParseItems cs.length rest with
    | some (ss, []) => some ss
    | _ => none
  | _ => none

/-! ## Run (cmd.go lines 222-294) -/

/-- Continuation of `Run` after the container name is fixed (cmd.go lines
250-293): resolve the container id, set up the TTY, possibly start size
monitoring and nil out ErrOut, build the request inside `fn`, and run
`fn` under `t.Safe`.  `msgs` are the ErrOut messages written so far
(the defaulting advisory). -/
def runResolved (o : DebugOptions) (env : RunEnv) (m0 : TermMode)
    (hostIP : String) (pod : Pod) (containerName : String) (msgs : List String) :
    RunTrace :=
  match getContainerIdByName pod containerName with
  | Except.error e =>
    { Result := RunOutcome.err e, ErrOutMessages := msgs,
      ResolvedName := some containerName, Request := none, Remote := none,
      MonitorSizeCalled := false, FinalMode := m0 }
  | Except.ok containerId =>
    let st := setupTTY env.IsTerminalIn o.ErrOutPresent
    let t := st.1
    let ttyMsgs := st.2
    let monitorSizeCalled := t.Raw
    let errOutNilAtStream := t.Raw || !o.ErrOutPresent
    let request : DebugRequest :=
      { Host := hostIP, Port := o.AgentPort, Path := "/api/v1/debug",
        Params :=
          [("command", String.mk (jsonEncodeStringList o.Command)),
           ("container", containerId),
           ("image", o.Image)] }
    let safeResult := TTYSafe t env.IsTerminalIn m0 env.TransportResult
    { Result :=
        match safeResult.1 with
        | Except.ok _ => RunOutcome.ok
        | Except.error e => RunOutcome.err (DebugError.transportError e),
      ErrOutMessages := msgs ++ ttyMsgs,
      ResolvedName := some containerName,
      Request := some request,
      Remote := some { tty := t.Raw, errOutNil := errOutNilAtStream },
      MonitorSizeCalled := monitorSizeCalled,
      FinalMode := safeResult.2.1 }

/-- `(o *DebugOptions) Run()` as a trace function.  `url.Parse` of
`http://hostIP:agentPort` and `json.Marshal` of a string slice are
modelled as always succeeding (the latter never fails in Go; the former
succeeds for host strings produced by a pod status).  The unguarded
`pod.Spec.Containers[0]` read is modelled by `[0]?`, with the out-of-
bounds case mapped to a `panicked` outcome; likewise the advisory write
at cmd.go:245 is an unguarded `fmt.Fprintf(o.ErrOut, ...)` — unlike the
guarded write at cmd.go:338 — so when more than one container is
declared and ErrOut is nil it panics on the nil writer. -/
def Run (o : DebugOptions) (env : RunEnv) (m0 : TermMode) : RunTrace :=
  match env.GetPodResult with
  | Except.error e =>
    { Result := RunOutcome.err (DebugError.podGetError e), ErrOutMessages := [],
      ResolvedName := none, Request := none, Remote := none,
      MonitorSizeCalled := false, FinalMode := m0 }
  | Except.ok pod =>
    if pod.Status.Phase = PodPhase.succeeded ∨ pod.Status.Phase = PodPhase.failed then
      { Result := RunOutcome.err (DebugError.podNotDebuggable pod.Status.Phase),
        ErrOutMessages := [], ResolvedName := none, Request := none, Remote := none,
        MonitorSizeCalled := false, FinalMode := m0 }
    else
      let hostIP := pod.Status.HostIP
      if o.ContainerName = "" then
        match pod.Spec.Containers[0]? with
        | none =>
          { Result := RunOutcome.panicked, ErrOutMessages := [],
            ResolvedName := none, Request := none, Remote := none,
            MonitorSizeCalled := false, FinalMode := m0 }
        | some c0 =>
          if pod.Spec.Containers.length > 1 then
            if o.ErrOutPresent = true then
              runResolved o env m0 hostIP pod c0.Name [defaultingMsg c0.Name]
            else
              { Result := RunOutcome.panicked, ErrOutMessages := [],
                ResolvedName := none, Request := none, Remote := none,
                MonitorSizeCalled := false, FinalMode := m0 }
          else
            runResolved o env m0 hostIP pod c0.Name []
      else
        runResolved o env m0 hostIP pod o.ContainerName []

/-! ## Complete (cmd.go lines 140-210) -/

/-- Built-in default debug image (cmd.go line 44). -/
def defaultImage : String := "nicolaka/netshoot:latest"

/-- Built-in default agent port (cmd.go line 45). -/
def defaultAgentPort : Int := 10027

/-- The debug config file contents, as produced by `LoadFile` (defined in
this repository outside cmd.go); cmd.go reads the fields Command, Image
and AgentPort.  The Go zero value is `⟨[], "", 0⟩`. -/
structure Config where
  Command : List String
  Image : String
  AgentPort : Int
deriving DecidableEq, Repr

/-- Results of the external calls `Complete` makes: namespace resolution
from the kubeconfig loader, the config-file load, the client-config
build and the clientset construction. -/
structure CompleteEnv where
  NamespaceResult : Except String String
  LoadFileResult : Except String Config
  ClientConfigResult : Except String Unit
  NewForConfigResult : Except String Unit
deriving Repr

/-- The option fields `Complete` populates. -/
structure CompleteState where
  Namespace : String
  PodName : String
  Command : List String
  Image : String
  AgentPort : Int
deriving DecidableEq, Repr

/-- `(o *DebugOptions) Complete(cmd, args, argsLenAtDash)`: fail when no
argument is given; resolve the namespace; load the config file,
substituting the zero Config on any load error; then apply the
precedence flag value, then config-file value, then built-in default,
independently to command (`args[1:]` is the flag-level value), image and
agent port; finally build the client config and clientset. -/
def Complete (flagImage : String) (flagAgentPort : Int) (args : List String)
    (env : CompleteEnv) : Except String CompleteState :=
  match args with
  | [] => Except.error "error pod not specified"
  | podName :: commandArgs =>
    match env.NamespaceResult with
    | Except.error e => Except.error e
    | Except.ok ns =>
      let config : Config :=
        match env.LoadFileResult with
        | Except.error _ => ({ Command := [], Image := "", AgentPort := 0 } : Config)
        | Except.ok c => c
      let command :=
        if commandArgs = [] then
          if config.Command ≠ [] then config.Command else ["bash"]
        else commandArgs
      let image :=
        if flagImage = "" then
          if config.Image ≠ "" then config.Image else defaultImage
        else flagImage
      let agentPort :=
        if flagAgentPort < 1 then
          if config.AgentPort > 0 then config.AgentPort else defaultAgentPort
        else flagAgentPort
      match env.ClientConfigResult with
      | Except.error e => Except.error e
      | Except.ok _ =>
        match env.NewForConfigResult with
        | Except.error e => Except.error e
        | Except.ok _ =>
          Except.ok { Namespace := ns, PodName := podName, Command := command,
                      Image := image, AgentPort := agentPort }

/-! ## The cobra Run handler of NewDebugCmd (cmd.go lines 110-122) -/

/-- Results of the three stages the handler invokes in order. -/
structure CmdEnv where
  CompleteResult : Option String
  ValidateResult : Option String
  RunResult : Option String
deriving DecidableEq, Repr

/-- Observable trace of the handler: everything printed with
`fmt.Println`, which stages were invoked, and the error the handler
propagates to cobra (none: the handler has the non-error `Run`
signature and swallows every stage error after printing it). -/
structure CmdTrace where
  Printed : List String
  CompleteCalled : Bool
  ValidateCalled : Bool
  RunCalled : Bool
  PropagatedError : Option String
deriving DecidableEq, Repr

/-- The closure bound to `Run:` in `NewDebugCmd`: print the greeting,
call Complete and print its error if any, call Validate and print its
error if any, call Run and print its error if any — with no early
return between the stages and no error escaping the handler. -/
def debugCmdRun (env : CmdEnv) : CmdTrace :=
  let p0 := ["hello i'm here, in cmd/ newDebugCmd"]
  let p1 := match env.CompleteResult with
    | some e => [e]
    | none => []
  let p2 := match env.ValidateResult with
    | some e => [e]
    | none => []
  let p3 := match env.RunResult with
    | some e => [e]
    | none => []
  { Printed := p0 ++ p1 ++ p2 ++ p3,
    CompleteCalled := true, ValidateCalled := true, RunCalled := true,
    PropagatedError := none }

/-- `(o *DebugOptions) Validate()` (cmd.go lines 212-220). -/
def Validate (podName : String) (command : List String) : Option String :=
  if podName = "" then some "pod name must be specified"
  else if command = [] then some "you must specify at least one command for the container"
  else none

end KubectlDebug

namespace KubectlDebug

/-! ## Helper lemmas about runResolved -/

/-- The continuation after name resolution always ends with the initial
terminal mode: on a resolution error the mode was never touched, and
otherwise the Safe wrapper restores it. -/
theorem runResolved_FinalMode (o : DebugOptions) (env : RunEnv) (m0 : TermMode)
    (hostIP : String) (pod : Pod) (n : String) (msgs : List String) :
    (runResolved o env m0 hostIP pod n msgs).FinalMode = m0 := by
  unfold runResolved TTYSafe
  split
  · rfl
  · simp only []
    split <;> rfl

/-- The continuation after name resolution never panics. -/
theorem runResolved_Result_ne_panicked (o : DebugOptions) (env : RunEnv) (m0 : TermMode)
    (hostIP : String) (pod : Pod) (n : String) (msgs : List String) :
    (runResolved o env m0 hostIP pod n msgs).Result ≠ RunOutcome.panicked := by
  unfold runResolved
  split
  · simp
  · simp only []
    split <;> simp

/-- The continuation records the name it resolves. -/
theorem runResolved_ResolvedName (o : DebugOptions) (env : RunEnv) (m0 : TermMode)
    (hostIP : String) (pod : Pod) (n : String) (msgs : List String) :
    (runResolved o env m0 hostIP pod n msgs).ResolvedName = some n := by
  unfold runResolved
  split <;> rfl

/-- The defaulting advisory is never the setupTTY warning (they differ in
their first character). -/
theorem defaultingMsg_ne_unable (name : String) : defaultingMsg name ≠ unableToUseTTYMsg := by
  intro h
  have h2 := congrArg (fun s : String => s.data.head?) h
  simp only [defaultingMsg, unableToUseTTYMsg] at h2
  rw [show ("Defaulting container name to " ++ name ++ ".") =
        String.mk ('D' :: ("efaulting container name to ".data ++ name.data ++ ".".data)) from
    rfl] at h2
  simp at h2

/-- ErrOut messages of the continuation: the messages passed in, plus at
most the setupTTY warning; the count of any other message is unchanged. -/
theorem runResolved_count_msgs (o : DebugOptions) (env : RunEnv) (m0 : TermMode)
    (hostIP : String) (pod : Pod) (n : String) (msgs : List String) (msg : String)
    (hmsg : msg ≠ unableToUseTTYMsg) :
    (runResolved o env m0 hostIP pod n msgs).ErrOutMessages.count msg = msgs.count msg := by
  unfold runResolved
  split
  · rfl
  · simp only [setupTTY]
    split
    · split <;> simp [List.count_append, List.count_cons, List.count_nil, hmsg]
    · simp [List.count_append]

/-! ## Helper lemmas about getContainerIdByName -/

/-- When no status carries the requested name the scan reports
`containerNotFound`. -/
theorem getAux_not_found (n : String) (l : List ContainerStatus)
    (h : ∀ s ∈ l, s.Name ≠ n) :
    getContainerIdByNameAux n l = Except.error (DebugError.containerNotFound n) := by
  induction l with
  | nil => rfl
  | cons c rest ih =>
    have hc : c.Name ≠ n := h c (List.mem_cons_self c rest)
    simp only [getContainerIdByNameAux, if_pos hc]
    exact ih (fun s hs => h s (List.mem_cons_of_mem c hs))

/-- When the statuses carry pairwise distinct names and some status with
the requested name is not ready, the scan reports `containerNotReady`. -/
theorem getAux_not_ready (n : String) (l : List ContainerStatus)
    (hnd : (l.map ContainerStatus.Name).Nodup)
    (s : ContainerStatus) (hs : s ∈ l) (hn : s.Name = n) (hr : s.Ready = false) :
    getContainerIdByNameAux n l = Except.error (DebugError.containerNotReady n) := by
  induction l with
  | nil => cases hs
  | cons c rest ih =>
    rw [List.map_cons, List.nodup_cons] at hnd
    rcases List.mem_cons.mp hs with rfl | hmem
    · simp only [getContainerIdByNameAux]
      rw [if_neg (by simp [hn]), if_pos hr]
    · have hc : c.Name ≠ n := by
        intro hcn
        exact hnd.1 (hcn ▸ hn ▸ List.mem_map_of_mem ContainerStatus.Name hmem)
      simp only [getContainerIdByNameAux, if_pos hc]
      exact ih hnd.2 hmem

/-- A successful scan result comes from a status entry with the requested
name, a true ready flag, and exactly the returned ContainerID. -/
theorem getAux_ok_mem (n : String) (l : List ContainerStatus) (cid : String)
    (h : getContainerIdByNameAux n l = Except.ok cid) :
    ∃ s ∈ l, s.Name = n ∧ s.Ready = true ∧ s.ContainerID = cid := by
  induction l with
  | nil => simp [getContainerIdByNameAux] at h
  | cons c rest ih =>
    by_cases hc : c.Name ≠ n
    · rw [getContainerIdByNameAux, if_pos hc] at h
      obtain ⟨s, hs, hprops⟩ := ih h
      exact ⟨s, List.mem_cons_of_mem c hs, hprops⟩
    · push_neg at hc
      rw [getContainerIdByNameAux, if_neg (by simp [hc])] at h
      by_cases hr : c.Ready = false
      · rw [if_pos hr] at h
        cases h
      · rw [if_neg hr] at h
        simp only [Except.ok.injEq] at h
        exact ⟨c, List.mem_cons_self c rest, hc, by simpa using hr, h⟩

/-! ## Sample inputs used by the witnesses -/

/-- A running two-container pod with both containers ready. -/
def samplePodRunning : Pod :=
  { Spec := { Containers := [{ Name := "web" }, { Name := "sidecar" }] },
    Status := { Phase := PodPhase.running, HostIP := "10.0.0.7",
                ContainerStatuses :=
                  [{ Name := "web", Ready := true, ContainerID := "docker://aaa" },
                   { Name := "sidecar", Ready := true, ContainerID := "docker://bbb" }] } }

/-- A pod whose phase is Succeeded. -/
def samplePodSucceeded : Pod :=
  { Spec := { Containers := [{ Name := "web" }] },
    Status := { Phase := PodPhase.succeeded, HostIP := "10.0.0.7",
                ContainerStatuses := [] } }

/-- A running pod with a single not-ready container named db. -/
def samplePodNotReady : Pod :=
  { Spec := { Containers := [{ Name := "db" }] },
    Status := { Phase := PodPhase.running, HostIP := "10.0.0.8",
                ContainerStatuses :=
                  [{ Name := "db", Ready := false, ContainerID := "docker://ddd" }] } }

/-- A running pod that declares no containers at all. -/
def samplePodEmpty : Pod :=
  { Spec := { Containers := [] },
    Status := { Phase := PodPhase.running, HostIP := "10.0.0.9",
                ContainerStatuses := [] } }

/-- Options as populated by Complete for a plain invocation. -/
def sampleOpts : DebugOptions :=
  { Namespace := "default", PodName := "mypod", Image := "nicolaka/netshoot:latest",
    ContainerName := "web", Command := ["bash"], AgentPort := 10027, ErrOutPresent := true }

end KubectlDebug

namespace KubectlDebug

/-! ## Claim theorems -/

/-- C1: For every session outcome — success, transport failure, stream
failure, or any error raised inside the session body — the local
terminal mode after Run returns equals the terminal mode before the
session began: every exit path of Run either never touched the mode or
goes through the Safe wrapper, which restores it. -/
theorem run_restores_terminal_mode (o : DebugOptions) (env : RunEnv) (m0 : TermMode) :
    (Run o env m0).FinalMode = m0 := by
  obtain ⟨gp, it, tr⟩ := env
  cases gp with
  | error e => rfl
  | ok pod =>
    simp only [Run]
    split
    · rfl
    · split
      · split
        · rfl
        · split
          · split
            · exact runResolved_FinalMode ..
            · rfl
          · exact runResolved_FinalMode ..
      · exact runResolved_FinalMode ..

/-- C2 (divergence witness): on a non-interactive invocation (stdin is a
pipe) the code still behaves as if a TTY were present, because setupTTY
sets `t.Raw = true` before probing interactivity: the transport is
called with tty = true and a nil stderr, and size monitoring is
requested — contradicting the cooked-mode behaviour the spec describes
and the "Unable to use a TTY" warning the code itself prints. -/
theorem noninteractive_not_cooked :
    (setupTTY false true).1.Raw = true ∧
    (Run sampleOpts
        { GetPodResult := Except.ok samplePodRunning, IsTerminalIn := false,
          TransportResult := Except.ok () } TermMode.cooked).Remote =
      some { tty := true, errOutNil := true } ∧
    (Run sampleOpts
        { GetPodResult := Except.ok samplePodRunning, IsTerminalIn := false,
          TransportResult := Except.ok () } TermMode.cooked).MonitorSizeCalled = true ∧
    (Run sampleOpts
        { GetPodResult := Except.ok samplePodRunning, IsTerminalIn := false,
          TransportResult := Except.ok () } TermMode.cooked).ErrOutMessages =
      [unableToUseTTYMsg] :=
  ⟨rfl, rfl, rfl, rfl⟩

/-- C3: for every pod whose phase is Succeeded or Failed, Run fails with
the PodNotDebuggable error ("cannot debug in a completed pod") and
returns before any container is resolved, any request is built, or the
agent is contacted. -/
theorem run_completed_pod (o : DebugOptions) (env : RunEnv) (pod : Pod) (m0 : TermMode)
    (hget : env.GetPodResult = Except.ok pod)
    (hphase : pod.Status.Phase = PodPhase.succeeded ∨ pod.Status.Phase = PodPhase.failed) :
    (Run o env m0).Result = RunOutcome.err (DebugError.podNotDebuggable pod.Status.Phase) ∧
    (Run o env m0).ResolvedName = none ∧
    (Run o env m0).Request = none ∧
    (Run o env m0).Remote = none ∧
    (DebugError.podNotDebuggable pod.Status.Phase).message =
      "cannot debug in a completed pod; current phase is " ++ phaseString pod.Status.Phase := by
  simp [Run, hget, if_pos hphase, DebugError.message]

/-- Witness for C3: a Succeeded pod is rejected before any request. -/
theorem run_completed_pod_witness :
    (Run sampleOpts
        { GetPodResult := Except.ok samplePodSucceeded, IsTerminalIn := true,
          TransportResult := Except.ok () } TermMode.cooked).Result =
      RunOutcome.err (DebugError.podNotDebuggable PodPhase.succeeded) ∧
    (Run sampleOpts
        { GetPodResult := Except.ok samplePodSucceeded, IsTerminalIn := true,
          TransportResult := Except.ok () } TermMode.cooked).ResolvedName = none ∧
    (Run sampleOpts
        { GetPodResult := Except.ok samplePodSucceeded, IsTerminalIn := true,
          TransportResult := Except.ok () } TermMode.cooked).Request = none ∧
    (Run sampleOpts
        { GetPodResult := Except.ok samplePodSucceeded, IsTerminalIn := true,
          TransportResult := Except.ok () } TermMode.cooked).Remote = none ∧
    (DebugError.podNotDebuggable PodPhase.succeeded).message =
      "cannot debug in a completed pod; current phase is " ++ phaseString PodPhase.succeeded :=
  run_completed_pod sampleOpts _ samplePodSucceeded TermMode.cooked rfl (Or.inl rfl)

/-- C4: a status entry matching the name with ready = false makes
resolution fail with ContainerNotReady (under the documented invariant
that names are unique within the pod); an absent name makes it fail with
ContainerNotFound; and in either case Run returns the error without
building a request or contacting the agent. -/
theorem resolution_failure_short_circuits (o : DebugOptions) (env : RunEnv) (pod : Pod)
    (m0 : TermMode) (n : String)
    (hget : env.GetPodResult = Except.ok pod)
    (hphase : ¬(pod.Status.Phase = PodPhase.succeeded ∨ pod.Status.Phase = PodPhase.failed))
    (hname : o.ContainerName = n) (hne : n ≠ "") :
    ((pod.Status.ContainerStatuses.map ContainerStatus.Name).Nodup →
      ∀ s ∈ pod.Status.ContainerStatuses, s.Name = n → s.Ready = false →
        getContainerIdByName pod n = Except.error (DebugError.containerNotReady n)) ∧
    ((∀ s ∈ pod.Status.ContainerStatuses, s.Name ≠ n) →
      getContainerIdByName pod n = Except.error (DebugError.containerNotFound n)) ∧
    (∀ e, getContainerIdByName pod n = Except.error e →
      (Run o env m0).Result = RunOutcome.err e ∧
      (Run o env m0).Request = none ∧ (Run o env m0).Remote = none) := by
  refine ⟨?_, ?_, ?_⟩
  · intro hnd s hs hsn hsr
    exact getAux_not_ready n pod.Status.ContainerStatuses hnd s hs hsn hsr
  · intro h
    exact getAux_not_found n pod.Status.ContainerStatuses h
  · intro e he
    simp [Run, hget, if_neg hphase, hname, if_neg hne, runResolved, he]

/-- Witness for C4: requesting the not-ready container db fails with
ContainerNotReady and no request is built. -/
theorem resolution_failure_short_circuits_witness :
    getContainerIdByName samplePodNotReady "db" =
      Except.error (DebugError.containerNotReady "db") ∧
    (Run { sampleOpts with ContainerName := "db" }
        { GetPodResult := Except.ok samplePodNotReady, IsTerminalIn := true,
          TransportResult := Except.ok () } TermMode.cooked).Request = none := by
  have h := resolution_failure_short_circuits { sampleOpts with ContainerName := "db" }
    { GetPodResult := Except.ok samplePodNotReady, IsTerminalIn := true,
      TransportResult := Except.ok () }
    samplePodNotReady TermMode.cooked "db" rfl (by decide) rfl (by decide)
  have hres := h.1 (by decide)
    { Name := "db", Ready := false, ContainerID := "docker://ddd" } (by simp [samplePodNotReady])
    rfl rfl
  exact ⟨hres, (h.2.2 _ hres).2.1⟩

/-- C5 (counterexample): with a nil local error stream, a multi-container
pod and an empty requested name, the unguarded
`fmt.Fprintf(o.ErrOut, ...)` at cmd.go:245 panics on the nil writer: no
advisory is emitted and resolution does not proceed, although the pod is
debuggable and declares more than one container. -/
theorem default_advisory_nil_errout_panics :
    (Run { sampleOpts with ContainerName := "", ErrOutPresent := false }
        { GetPodResult := Except.ok samplePodRunning, IsTerminalIn := true,
          TransportResult := Except.ok () } TermMode.cooked).Result =
      RunOutcome.panicked ∧
    (Run { sampleOpts with ContainerName := "", ErrOutPresent := false }
        { GetPodResult := Except.ok samplePodRunning, IsTerminalIn := true,
          TransportResult := Except.ok () } TermMode.cooked).ErrOutMessages = [] ∧
    samplePodRunning.Spec.Containers ≠ [] ∧
    samplePodRunning.Status.Phase = PodPhase.running :=
  ⟨rfl, rfl, by decide, rfl⟩

/-- C5 (amended): with a debuggable pod, an empty requested name and a
non-nil local error stream — as every invocation built by NewDebugCmd
supplies — the first declared container is selected, the defaulting
advisory is written exactly once precisely when more than one container
is declared, and resolution proceeds (no panic, no error from the
advisory itself).  With a nil error stream and more than one container
the unguarded advisory write panics instead (see the counterexample). -/
theorem default_container_selection (o : DebugOptions) (env : RunEnv) (pod : Pod)
    (m0 : TermMode) (c0 : Container) (rest : List Container)
    (hget : env.GetPodResult = Except.ok pod)
    (hphase : ¬(pod.Status.Phase = PodPhase.succeeded ∨ pod.Status.Phase = PodPhase.failed))
    (hname : o.ContainerName = "")
    (hcont : pod.Spec.Containers = c0 :: rest)
    (herr : o.ErrOutPresent = true) :
    (Run o env m0).ResolvedName = some c0.Name ∧
    ((Run o env m0).ErrOutMessages.count (defaultingMsg c0.Name) =
      if rest = [] then 0 else 1) ∧
    (Run o env m0).Result ≠ RunOutcome.panicked := by
  simp only [Run, hget, if_neg hphase, hname, hcont, ite_true, List.getElem?_cons_zero]
  cases rest with
  | nil =>
    rw [if_neg (show ¬((c0 :: ([] : List Container)).length > 1) from by simp)]
    refine ⟨runResolved_ResolvedName _ _ _ _ _ _ _, ?_,
      runResolved_Result_ne_panicked _ _ _ _ _ _ _⟩
    rw [runResolved_count_msgs _ _ _ _ _ _ _ _ (defaultingMsg_ne_unable c0.Name)]
    simp
  | cons c1 rest2 =>
    rw [if_pos (show (c0 :: c1 :: rest2).length > 1 from by
          simp only [List.length_cons]; omega),
      if_pos herr]
    refine ⟨runResolved_ResolvedName _ _ _ _ _ _ _, ?_,
      runResolved_Result_ne_panicked _ _ _ _ _ _ _⟩
    rw [runResolved_count_msgs _ _ _ _ _ _ _ _ (defaultingMsg_ne_unable c0.Name)]
    simp [List.count_cons]

/-- Witness for C5: the two-container pod (error stream present) defaults
to web and the advisory is emitted exactly once. -/
theorem default_container_selection_witness :
    (Run { sampleOpts with ContainerName := "" }
        { GetPodResult := Except.ok samplePodRunning, IsTerminalIn := true,
          TransportResult := Except.ok () } TermMode.cooked).ResolvedName = some "web" ∧
    (Run { sampleOpts with ContainerName := "" }
        { GetPodResult := Except.ok samplePodRunning, IsTerminalIn := true,
          TransportResult := Except.ok () } TermMode.cooked).ErrOutMessages.count
      (defaultingMsg "web") = 1 := by
  have h := default_container_selection { sampleOpts with ContainerName := "" }
    { GetPodResult := Except.ok samplePodRunning, IsTerminalIn := true,
      TransportResult := Except.ok () }
    samplePodRunning TermMode.cooked { Name := "web" } [{ Name := "sidecar" }]
    rfl (by decide) rfl rfl rfl
  exact ⟨h.1, h.2.1.trans (by decide)⟩

/-- C6: on successful resolution, the request is addressed to the fixed
path /api/v1/debug on hostIP:agentPort and carries exactly the
parameters command (the vector JSON-encoded as an ordered array),
container (the matched ContainerID passed through unchanged) and image;
the id comes verbatim from the matching status entry. -/
theorem request_built_correctly (o : DebugOptions) (env : RunEnv) (pod : Pod)
    (m0 : TermMode) (n : String) (cid : String)
    (hget : env.GetPodResult = Except.ok pod)
    (hphase : ¬(pod.Status.Phase = PodPhase.succeeded ∨ pod.Status.Phase = PodPhase.failed))
    (hname : o.ContainerName = n) (hne : n ≠ "")
    (hok : getContainerIdByName pod n = Except.ok cid) :
    (Run o env m0).Request = some
      { Host := pod.Status.HostIP, Port := o.AgentPort, Path := "/api/v1/debug",
        Params :=
          [("command", String.mk (jsonEncodeStringList o.Command)),
           ("container", cid),
           ("image", o.Image)] } ∧
    ∃ s ∈ pod.Status.ContainerStatuses, s.Name = n ∧ s.ContainerID = cid := by
  constructor
  · simp only [Run, hget, if_neg hphase, hname, if_neg hne, runResolved, hok]
  · obtain ⟨s, hs, h1, _, h3⟩ := getAux_ok_mem n pod.Status.ContainerStatuses cid hok
    exact ⟨s, hs, h1, h3⟩

/-- Witness for C6: the request built for the sample pod. -/
theorem request_built_correctly_witness :
    (Run sampleOpts
        { GetPodResult := Except.ok samplePodRunning, IsTerminalIn := true,
          TransportResult := Except.ok () } TermMode.cooked).Request = some
      { Host := "10.0.0.7", Port := 10027, Path := "/api/v1/debug",
        Params :=
          [("command", String.mk (jsonEncodeStringList ["bash"])),
           ("container", "docker://aaa"),
           ("image", "nicolaka/netshoot:latest")] } ∧
    ∃ s ∈ samplePodRunning.Status.ContainerStatuses,
      s.Name = "web" ∧ s.ContainerID = "docker://aaa" :=
  request_built_correctly sampleOpts
    { GetPodResult := Except.ok samplePodRunning, IsTerminalIn := true,
      TransportResult := Except.ok () }
    samplePodRunning TermMode.cooked "web" "docker://aaa" rfl (by decide) rfl (by decide) rfl

end KubectlDebug

namespace KubectlDebug

/-- C7 (counterexample): a Complete failure does not end the invocation —
the handler still attempts Run, and it propagates no error (so the
stage errors cannot produce a non-zero process exit through cobra). -/
theorem complete_error_does_not_stop_run :
    (debugCmdRun { CompleteResult := some "error pod not specified",
                   ValidateResult := none, RunResult := none }).RunCalled = true ∧
    (debugCmdRun { CompleteResult := some "error pod not specified",
                   ValidateResult := none, RunResult := none }).PropagatedError = none :=
  ⟨rfl, rfl⟩

/-- C7 (amended): every stage error is reported as a human-readable
printed message, but the handler never aborts: Complete, Validate and
Run are all invoked regardless of earlier failures, and no error is
propagated out of the handler. -/
theorem handler_reports_and_continues (env : CmdEnv) :
    (∀ e, env.CompleteResult = some e → e ∈ (debugCmdRun env).Printed) ∧
    (∀ e, env.ValidateResult = some e → e ∈ (debugCmdRun env).Printed) ∧
    (∀ e, env.RunResult = some e → e ∈ (debugCmdRun env).Printed) ∧
    (debugCmdRun env).CompleteCalled = true ∧
    (debugCmdRun env).ValidateCalled = true ∧
    (debugCmdRun env).RunCalled = true ∧
    (debugCmdRun env).PropagatedError = none := by
  obtain ⟨cr, vr, rr⟩ := env
  refine ⟨?_, ?_, ?_, rfl, rfl, rfl, rfl⟩ <;>
    intro e he <;> subst he <;> simp [debugCmdRun]

/-- Witness for the amended C7: a failing Complete is reported and Run is
still attempted. -/
theorem handler_reports_and_continues_witness :
    "boom" ∈ (debugCmdRun { CompleteResult := some "boom",
                            ValidateResult := none, RunResult := none }).Printed ∧
    (debugCmdRun { CompleteResult := some "boom",
                   ValidateResult := none, RunResult := none }).RunCalled = true :=
  ⟨(handler_reports_and_continues _).1 "boom" rfl,
   (handler_reports_and_continues _).2.2.2.2.2.1⟩

/-- C9: with an empty requested container name, Run reads the first
declared container unconditionally, with no guard for an empty list:
when the pod declares no containers the access is out of bounds and the
run panics before any name is resolved or request built; when at least
one container is declared the access is in bounds — the read yields the
first declared container — and (with a usable error stream, the other
unguarded panic being C5's) the run does not panic. -/
theorem default_requires_declared_container (o : DebugOptions) (env : RunEnv) (pod : Pod)
    (m0 : TermMode)
    (hget : env.GetPodResult = Except.ok pod)
    (hphase : ¬(pod.Status.Phase = PodPhase.succeeded ∨ pod.Status.Phase = PodPhase.failed))
    (hname : o.ContainerName = "") :
    (pod.Spec.Containers = [] →
      (Run o env m0).Result = RunOutcome.panicked ∧
      (Run o env m0).ResolvedName = none ∧ (Run o env m0).Request = none) ∧
    (∀ c0 rest, pod.Spec.Containers = c0 :: rest →
      pod.Spec.Containers[0]? = some c0 ∧
      (o.ErrOutPresent = true → (Run o env m0).Result ≠ RunOutcome.panicked)) := by
  constructor
  · intro hc
    simp [Run, hget, if_neg hphase, hname, hc]
  · intro c0 rest hc
    constructor
    · simp [hc]
    · intro herr
      simp only [Run, hget, if_neg hphase, hname, hc, ite_true, herr,
        List.getElem?_cons_zero]
      split
      · exact runResolved_Result_ne_panicked _ _ _ _ _ _ _
      · exact runResolved_Result_ne_panicked _ _ _ _ _ _ _

/-- Witness for C9: a pod without declared containers makes the
defaulting step panic before resolving a name or building a request. -/
theorem default_requires_declared_container_witness :
    (Run { sampleOpts with ContainerName := "" }
        { GetPodResult := Except.ok samplePodEmpty, IsTerminalIn := true,
          TransportResult := Except.ok () } TermMode.cooked).Result =
      RunOutcome.panicked ∧
    (Run { sampleOpts with ContainerName := "" }
        { GetPodResult := Except.ok samplePodEmpty, IsTerminalIn := true,
          TransportResult := Except.ok () } TermMode.cooked).ResolvedName = none ∧
    (Run { sampleOpts with ContainerName := "" }
        { GetPodResult := Except.ok samplePodEmpty, IsTerminalIn := true,
          TransportResult := Except.ok () } TermMode.cooked).Request = none :=
  (default_requires_declared_container { sampleOpts with ContainerName := "" }
    { GetPodResult := Except.ok samplePodEmpty, IsTerminalIn := true,
      TransportResult := Except.ok () }
    samplePodEmpty TermMode.cooked rfl (by decide) rfl).1 rfl

/-- C10: Complete never fails because of a config-file load error — the
result is the same as with an empty substituted configuration — and a
successful Complete always yields a non-empty command, a non-empty image
and a positive agent port, by the precedence flag, then config value,
then built-in default. -/
theorem complete_config_error_tolerated (flagImage : String) (flagAgentPort : Int)
    (args : List String) (env : CompleteEnv) :
    (∀ e, Complete flagImage flagAgentPort args
            { env with LoadFileResult := Except.error e } =
          Complete flagImage flagAgentPort args
            { env with LoadFileResult :=
                Except.ok { Command := [], Image := "", AgentPort := 0 } }) ∧
    (∀ st, Complete flagImage flagAgentPort args env = Except.ok st →
      st.Command ≠ [] ∧ st.Image ≠ "" ∧ 1 ≤ st.AgentPort) := by
  obtain ⟨nsr, lfr, ccr, nfr⟩ := env
  constructor
  · intro e
    cases args <;> cases nsr <;> cases ccr <;> cases nfr <;> rfl
  · intro st h
    cases args with
    | nil => simp [Complete] at h
    | cons podName commandArgs =>
      cases nsr with
      | error e => simp [Complete] at h
      | ok ns =>
        cases ccr with
        | error e => simp [Complete] at h
        | ok u =>
          cases nfr with
          | error e => simp [Complete] at h
          | ok u2 =>
            simp only [Complete, Except.ok.injEq] at h
            subst h
            dsimp only
            refine ⟨?_, ?_, ?_⟩ <;> split_ifs <;> first | assumption | decide | omega

/-- Witness for C10: with an unreadable config file and no flags, Complete
succeeds and applies the built-in defaults. -/
theorem complete_config_error_tolerated_witness :
    (Complete "" 0 ["mypod"]
        { NamespaceResult := Except.ok "default",
          LoadFileResult := Except.error "open: no such file",
          ClientConfigResult := Except.ok (), NewForConfigResult := Except.ok () } =
      Complete "" 0 ["mypod"]
        { NamespaceResult := Except.ok "default",
          LoadFileResult := Except.ok { Command := [], Image := "", AgentPort := 0 },
          ClientConfigResult := Except.ok (), NewForConfigResult := Except.ok () }) ∧
    (({ Namespace := "default", PodName := "mypod", Command := ["bash"],
        Image := defaultImage, AgentPort := defaultAgentPort } : CompleteState).Command ≠ [] ∧
     ({ Namespace := "default", PodName := "mypod", Command := ["bash"],
        Image := defaultImage, AgentPort := defaultAgentPort } : CompleteState).Image ≠ "" ∧
     1 ≤ ({ Namespace := "default", PodName := "mypod", Command := ["bash"],
             Image := defaultImage, AgentPort := defaultAgentPort } : CompleteState).AgentPort) := by
  constructor
  · exact (complete_config_error_tolerated "" 0 ["mypod"]
      { NamespaceResult := Except.ok "default",
        LoadFileResult := Except.error "open: no such file",
        ClientConfigResult := Except.ok (), NewForConfigResult := Except.ok () }).1
      "open: no such file"
  · exact (complete_config_error_tolerated "" 0 ["mypod"]
      { NamespaceResult := Except.ok "default",
        LoadFileResult := Except.error "open: no such file",
        ClientConfigResult := Except.ok (), NewForConfigResult := Except.ok () }).2
      _ rfl

end KubectlDebug

namespace KubectlDebug

/-! ## Roundtrip of the JSON command encoding -/

/-- A hex digit emitted by the encoder decodes to its value. -/
theorem hexRound (n : Nat) (h : n < 16) : hexDigitVal (hexDigitChar n) = some n := by
  interval_cases n <;> rfl

/-- Parsing one encoded character: the parser consumes exactly the escape
sequence the encoder emitted and produces the original character. -/
theorem parseBody_escapeChar (fuel : Nat) (c : Char) (rest : List Char) :
    jsonParseStringBody (fuel + 1) (jsonEscapeChar c ++ rest) =
      (jsonParseStringBody fuel rest).map (fun p => (c :: p.1, p.2)) := by
  unfold jsonEscapeChar
  by_cases h1 : c = quoteChar
  · rw [if_pos h1]; subst h1; rfl
  rw [if_neg h1]
  by_cases h2 : c = backslashChar
  · rw [if_pos h2]; subst h2; rfl
  rw [if_neg h2]
  by_cases h3 : c = '\n'
  · rw [if_pos h3]; subst h3; rfl
  rw [if_neg h3]
  by_cases h4 : c = '\r'
  · rw [if_pos h4]; subst h4; rfl
  rw [if_neg h4]
  by_cases h5 : c = '\t'
  · rw [if_pos h5]; subst h5; rfl
  rw [if_neg h5]
  by_cases h6 : c.toNat < 32
  · rw [if_pos h6]
    have e3 := hexRound (c.toNat / 16) (by omega)
    have e4 := hexRound (c.toNat % 16) (Nat.mod_lt _ (by norm_num))
    have step : jsonParseStringBody (fuel + 1)
        (backslashChar :: 'u' :: '0' :: '0' ::
          hexDigitChar (c.toNat / 16) :: hexDigitChar (c.toNat % 16) :: [] ++ rest) =
        (match hexDigitVal '0', hexDigitVal '0',
               hexDigitVal (hexDigitChar (c.toNat / 16)),
               hexDigitVal (hexDigitChar (c.toNat % 16)) with
         | some a2, some b2, some c2, some d2 =>
           (jsonParseStringBody fuel rest).map
             (fun p => (Char.ofNat (((a2 * 16 + b2) * 16 + c2) * 16 + d2) :: p.1, p.2))
         | _, _, _, _ => none) := rfl
    rw [step, e3, e4, show hexDigitVal '0' = some 0 from rfl]
    simp only [show ∀ x y : Nat, ((0 * 16 + 0) * 16 + x) * 16 + y = x * 16 + y from
      by intro x y; ring]
    have harith : c.toNat / 16 * 16 + c.toNat % 16 = c.toNat := by omega
    rw [harith, Char.ofNat_toNat]
  rw [if_neg h6]
  by_cases h7 : c = '<'
  · rw [if_pos h7]; subst h7; rfl
  rw [if_neg h7]
  by_cases h8 : c = '>'
  · rw [if_pos h8]; subst h8; rfl
  rw [if_neg h8]
  by_cases h9 : c = '&'
  · rw [if_pos h9]; subst h9; rfl
  rw [if_neg h9]
  by_cases h10 : c.toNat = 8232
  · rw [if_pos h10]
    rw [show jsonParseStringBody (fuel + 1)
          ([backslashChar, 'u', '2', '0', '2', '8'] ++ rest) =
        (jsonParseStringBody fuel rest).map
          (fun p => (Char.ofNat 8232 :: p.1, p.2)) from rfl]
    rw [show Char.ofNat 8232 = c from by rw [← h10, Char.ofNat_toNat]]
  rw [if_neg h10]
  by_cases h11 : c.toNat = 8233
  · rw [if_pos h11]
    rw [show jsonParseStringBody (fuel + 1)
          ([backslashChar, 'u', '2', '0', '2', '9'] ++ rest) =
        (jsonParseStringBody fuel rest).map
          (fun p => (Char.ofNat 8233 :: p.1, p.2)) from rfl]
    rw [show Char.ofNat 8233 = c from by rw [← h11, Char.ofNat_toNat]]
  rw [if_neg h11]
  show jsonParseStringBody (fuel + 1) (c :: rest) = _
  simp only [jsonParseStringBody]
  rw [if_neg h1, if_neg h2]

/-- Parsing an encoded string body followed by the closing quote yields
the original characters and the remaining input. -/
theorem parseBody_escapeString (s : List Char) (tail : List Char) :
    ∀ fuel, s.length < fuel →
      jsonParseStringBody fuel (jsonEscapeString s ++ (quoteChar :: tail)) = some (s, tail) := by
  induction s with
  | nil =>
    intro fuel hf
    match fuel, hf with
    | f + 1, _ => rfl
  | cons c cs ih =>
    intro fuel hf
    match fuel, hf with
    | f + 1, hf2 =>
      rw [jsonEscapeString, List.append_assoc, parseBody_escapeChar,
        ih f (by simp only [List.length_cons] at hf2; omega)]
      rfl

set_option maxHeartbeats 1000000 in
/-- Every escape sequence is non-empty. -/
theorem escapeChar_length_ge (c : Char) : 1 ≤ (jsonEscapeChar c).length := by
  unfold jsonEscapeChar
  repeat' split
  all_goals exact Nat.succ_le_succ (Nat.zero_le _)

/-- The escaped body is at least as long as the original. -/
theorem escapeString_length_ge (s : List Char) :
    s.length ≤ (jsonEscapeString s).length := by
  induction s with
  | nil => exact Nat.le_refl _
  | cons c cs ih =>
    rw [jsonEscapeString, List.length_append, List.length_cons]
    have h1 := escapeChar_length_ge c
    omega

/-- One unfolding step of the item parser at an opening quote. -/
theorem parseItems_cons_quote (f : Nat) (rest : List Char) :
    jsonParseItems (f + 1) (quoteChar :: rest) =
      (match jsonParseStringBody (rest.length + 1) rest with
       | none => none
       | some (s, r) =>
         match r with
         | ',' :: r2 =>
           match jsonParseItems f r2 with
           | some (ss, r3) => some (String.mk s :: ss, r3)
           | none => none
         | ']' :: r2 => some ([String.mk s], r2)
         | _ => none) := rfl

/-- Parsing the encoded elements of a non-empty vector followed by the
closing bracket yields the original vector. -/
theorem parseItems_encode (xs : List String) :
    ∀ (fuel : Nat) (tail : List Char), xs ≠ [] → xs.length ≤ fuel →
      jsonParseItems fuel (jsonEncodeStringListAux xs ++ (']' :: tail)) = some (xs, tail) := by
  induction xs with
  | nil => intro fuel tail h; exact absurd rfl h
  | cons x rest ih =>
    intro fuel tail _ hlen
    cases fuel with
    | zero => simp only [List.length_cons] at hlen; omega
    | succ f =>
      cases rest with
      | nil =>
        rw [show jsonEncodeStringListAux [x] = jsonEncodeStringChars x from rfl,
          jsonEncodeStringChars]
        simp only [List.cons_append, List.nil_append, List.append_assoc]
        rw [parseItems_cons_quote,
          parseBody_escapeString x.data (']' :: tail)
            ((jsonEscapeString x.data ++ (quoteChar :: (']' :: tail))).length + 1)
            (by
              have h1 := escapeString_length_ge x.data
              simp only [List.length_append, List.length_cons]
              omega)]
        rfl
      | cons y t =>
        rw [show jsonEncodeStringListAux (x :: y :: t) =
            jsonEncodeStringChars x ++ ',' :: jsonEncodeStringListAux (y :: t) from rfl,
          jsonEncodeStringChars]
        simp only [List.cons_append, List.nil_append, List.append_assoc]
        rw [parseItems_cons_quote,
          parseBody_escapeString x.data
            (',' :: (jsonEncodeStringListAux (y :: t) ++ (']' :: tail)))
            ((jsonEscapeString x.data ++
              (quoteChar :: (',' :: (jsonEncodeStringListAux (y :: t) ++
                (']' :: tail))))).length + 1)
            (by
              have h1 := escapeString_length_ge x.data
              simp only [List.length_append, List.length_cons]
              omega)]
        show (match jsonParseItems f (jsonEncodeStringListAux (y :: t) ++ (']' :: tail)) with
              | some (ss, r3) => some (String.mk x.data :: ss, r3)
              | none => none) = some (x :: y :: t, tail)
        rw [ih f tail (by simp) (by simp only [List.length_cons] at hlen ⊢; omega)]

/-- The element encodings are at least as many characters as elements. -/
theorem length_le_encodeAux (xs : List String) :
    xs.length ≤ (jsonEncodeStringListAux xs).length := by
  induction xs with
  | nil => exact Nat.le_refl _
  | cons x rest ih =>
    cases rest with
    | nil =>
      rw [show jsonEncodeStringListAux [x] = jsonEncodeStringChars x from rfl,
        jsonEncodeStringChars]
      simp only [List.length_cons, List.length_append, List.length_nil]
      omega
    | cons y t =>
      rw [show jsonEncodeStringListAux (x :: y :: t) =
          jsonEncodeStringChars x ++ ',' :: jsonEncodeStringListAux (y :: t) from rfl,
        jsonEncodeStringChars]
      simp only [List.length_cons, List.length_append, List.length_nil] at ih ⊢
      omega

/-- C8: for every non-empty command vector, JSON-encoding the vector as
done when building the command request parameter and then JSON-decoding
the result yields the original vector element-for-element. -/
theorem command_json_roundtrip (cmd : List String) (h : cmd ≠ []) :
    jsonDecodeStringList (jsonEncodeStringList cmd) = some cmd := by
  have step : jsonDecodeStringList (jsonEncodeStringList cmd) =
      (match jsonParseItems ('[' :: (jsonEncodeStringListAux cmd ++ [']'])).length
              (jsonEncodeStringListAux cmd ++ [']']) with
       | some (ss, []) => some ss
       | _ => none) := rfl
  rw [step]
  have hlen : cmd.length ≤ ('[' :: (jsonEncodeStringListAux cmd ++ [']'])).length := by
    have h1 := length_le_encodeAux cmd
    simp only [List.length_cons, List.length_append]
    omega
  rw [show jsonEncodeStringListAux cmd ++ [']'] =
      jsonEncodeStringListAux cmd ++ (']' :: []) from rfl,
    parseItems_encode cmd _ [] h hlen]

/-- Witness for C8: a vector with spaces and HTML-escaped characters
survives the roundtrip. -/
theorem command_json_roundtrip_witness :
    jsonDecodeStringList (jsonEncodeStringList ["echo", "a b & c <d>", "tab\there"]) =
      some ["echo", "a b & c <d>", "tab\there"] :=
  command_json_roundtrip _ (by simp)

end KubectlDebug
